import Mathlib

/-!
Verification of the symbolic model builder and solver dispatcher of the
interactive mathematical-optimization system (`codigo/solvers.py`).

The Python source defines five problem classes (LP, IP, NLP, MILP, MINLP),
each with the same pipeline: parse identifier lists and constraint rows,
validate parameter coverage, assemble a Pyomo model (sets, parameters,
variables, objective, constraints), dispatch it to a backend solver
(GLPK or Ipopt) and interpret the solver status.  This file gives a shallow
embedding of that pipeline and proves the specified properties about it.

Modelling conventions:
* Python strings are modelled as `List Char` where character-level
  operations matter (`parse_lista`) and as `String` elsewhere.
* Numeric values are modelled as exact rationals (`Rat`); no claim below
  depends on binary floating-point rounding.
* Python dictionaries are modelled as association lists; `dict.get` is
  `List.lookup`, insertion order is preserved as in CPython.
* Calls to `st.error` (Streamlit) are modelled by accumulating the reported
  diagnostics in an explicit list.
* The external Pyomo/solver layer is modelled by the assembled-model data
  and by a `backend` function parameter producing a raw solver outcome; the
  source never inspects anything but the outcome's status fields.
-/

/-! ## Python character-level primitives -/

/-- Characters removed by Python `str.strip()` (ASCII whitespace; the
unicode space classes accepted by CPython are irrelevant to the inputs
considered here). -/
def esEspacioPython (c : Char) : Bool :=
  c = ' ' || c = '\t' || c = '\n' || c = '\r' || c = '\x0b' || c = '\x0c'

/-- Python `str.strip()`: drop leading and trailing whitespace. -/
def pyStrip (l : List Char) : List Char :=
  ((l.dropWhile esEspacioPython).reverse.dropWhile esEspacioPython).reverse

/-- Python `texto.split(",")`: split on every comma, keeping empty segments. -/
def separaPorComas : List Char → List (List Char)
  | [] => [[]]
  | c :: rest =>
    match separaPorComas rest with
    | [] => [[]]
    | seg :: segs => if c = ',' then [] :: seg :: segs else (c :: seg) :: segs

/-- Python `item.replace(" ", "_")`: the pattern is the single character
U+0020, so the call is a character map (tabs and other whitespace are NOT
replaced). -/
def reemplazaEspacios (l : List Char) : List Char :=
  l.map (fun c => if c = ' ' then '_' else c)

/-! ## Identifier List Parser (`parse_lista`, identical in all five classes) -/

/-- Embedding of `parse_lista` (solvers.py lines 18-22, repeated verbatim at
lines 219-220, 362-363, 453-454, 579-580):
`[item.strip().replace(" ", "_") for item in texto.split(",") if item.strip()]`. -/
def parse_lista (texto : List Char) : List (List Char) :=
  (separaPorComas texto).filterMap (fun item =>
    let s := pyStrip item
    if s = [] then none else some (reemplazaEspacios s))

/-! ## Operator Canonicalizer -/

/-- The operator symbols offered by the UI (solvers.py line 166):
`operadores = ["≤", "≥", "=", "<", ">", "≠"]`. -/
def simbolosOperador : List String := ["≤", "≥", "=", "<", ">", "≠"]

/-- The canonical comparison tags (the values of `operadores_validos`). -/
def etiquetasCanonicas : List String := ["<=", ">=", "==", "<", ">", "!="]

/-- Embedding of the dictionary lookup in `operadores_validos`
(solvers.py line 29):
`{"≤": "<=", "≥": ">=", "=": "==", "<": "<", ">": ">", "≠": "!="}`;
`none` models the `operador not in operadores_validos` branch. -/
def canonicalizarOperador (op : String) : Option String :=
  if op = "≤" then some "<="
  else if op = "≥" then some ">="
  else if op = "=" then some "=="
  else if op = "<" then some "<"
  else if op = ">" then some ">"
  else if op = "≠" then some "!="
  else none

/-! ## Raw constraint rows and value coercion (linear mode) -/

/-- A raw right-hand-side value as supplied to `parse_restricciones`: either
an already numeric value (the UI's `st.number_input` always yields one) or
free text.  Python `float(...)` on other types raises `TypeError`, which the
source does not catch; such inputs are outside the data model of the spec
(§6 allows numeric values and value text only). -/
inductive RawValue where
  | num (q : Rat)
  | str (s : String)
deriving DecidableEq

/-- Decimal-literal fragment accepted by Python `float(text)`: optional
surrounding whitespace, optional sign, digits with an optional fractional
part (`"3"`, `"3."`, `".5"`, `"2.75"`).  Exponent notation, `inf`/`nan`
and digit underscores are omitted; no claim depends on them. -/
def valorDeDigitos (ds : List Char) : Rat :=
  ((ds.foldl (fun acc d => acc * 10 + (d.toNat - '0'.toNat)) 0 : Nat) : Rat)

/-- Numeric value of a fractional digit block `frac` read after the dot. -/
def valorFraccion (frac : List Char) : Rat :=
  valorDeDigitos frac / ((10 : Rat) ^ frac.length)

/-- Parse the digits of a stripped, unsigned decimal literal. -/
def parseDecimal (l : List Char) : Option Rat :=
  let ent := l.takeWhile Char.isDigit
  let resto := l.dropWhile Char.isDigit
  match resto with
  | [] => if ent = [] then none else some (valorDeDigitos ent)
  | '.' :: resto2 =>
    let frac := resto2.takeWhile Char.isDigit
    let resto3 := resto2.dropWhile Char.isDigit
    if resto3 = [] then
      if ent = [] && frac = [] then none
      else some (valorDeDigitos ent + valorFraccion frac)
    else none
  | _ => none

/-- Python `float(text)` on a string, returning `none` where CPython raises
`ValueError`. -/
def pyFloatDeCadena (s : String) : Option Rat :=
  match pyStrip s.toList with
  | '+' :: l => parseDecimal l
  | '-' :: l => (parseDecimal l).map (fun q => -q)
  | l => parseDecimal l

/-- Python `float(valor)` as used at solvers.py line 43: succeeds on numeric
input, parses text, `none` models the caught `ValueError`. -/
def pyFloat : RawValue → Option Rat
  | .num q => some q
  | .str s => pyFloatDeCadena s

/-! ## Constraint Normalizer (`parse_restricciones`, linear mode) -/

/-- One raw input row handed to `parse_restricciones`: the dictionary
`{'parametro': ..., 'operador': ..., 'valor': ...}` built by the UI. -/
structure RestrInput where
  parametro : String
  operador : String
  valor : RawValue
deriving DecidableEq

/-- One normalized row as appended at solvers.py lines 48-52. -/
structure Restriccion where
  parametro : String
  operador : String
  valor : Rat
deriving DecidableEq

/-- The three per-row diagnostics issued by `parse_restricciones`
(`st.error` at solvers.py lines 37, 40, 45). -/
inductive RowError where
  | parametroNoReconocido
  | operadorNoValido
  | valorNoNumerico
deriving DecidableEq

/-- Worker for `parse_restricciones`: `idx` is the 0-based position of the
head row (Python's `enumerate`), diagnostics carry the 1-based index
`idx+1` exactly as the `st.error` messages do.  Mirrors the loop at
solvers.py lines 31-52: parameter check, operator check, float coercion,
each `continue`-ing on failure, and the append on success. -/
def parseRestriccionesAux (nombres : List String) (idx : Nat) :
    List RestrInput → List Restriccion × List (Nat × RowError)
  | [] => ([], [])
  | r :: rest =>
    let prev := parseRestriccionesAux nombres (idx + 1) rest
    if r.parametro ∈ nombres then
      match canonicalizarOperador r.operador with
      | some opc =>
        match pyFloat r.valor with
        | some v => (⟨r.parametro, opc, v⟩ :: prev.1, prev.2)
        | none => (prev.1, (idx + 1, RowError.valorNoNumerico) :: prev.2)
      | none => (prev.1, (idx + 1, RowError.operadorNoValido) :: prev.2)
    else (prev.1, (idx + 1, RowError.parametroNoReconocido) :: prev.2)

/-- Embedding of `LP.parse_restricciones` / `IP.parse_restricciones`
(solvers.py lines 24-53 and 222-245, identical bodies): returns the list of
normalized rows together with the reported per-row diagnostics. -/
def parseRestricciones (filas : List RestrInput) (nombres : List String) :
    List Restriccion × List (Nat × RowError) :=
  parseRestriccionesAux nombres 0 filas

/-- Per-row success function: the normalized row a single input row yields,
if it passes all three checks of `parse_restricciones`. -/
def normalizarFila (nombres : List String) (r : RestrInput) : Option Restriccion :=
  if r.parametro ∈ nombres then
    match canonicalizarOperador r.operador with
    | some opc => (pyFloat r.valor).map (fun v => ⟨r.parametro, opc, v⟩)
    | none => none
  else none

/-- Per-row failure function: the diagnostic a single input row triggers,
if any (parameter check first, then operator, then value, as in the source). -/
def clasificaFila (nombres : List String) (r : RestrInput) : Option RowError :=
  if r.parametro ∈ nombres then
    match canonicalizarOperador r.operador with
    | some _ =>
      match pyFloat r.valor with
      | some _ => none
      | none => some RowError.valorNoNumerico
    | none => some RowError.operadorNoValido
  else some RowError.parametroNoReconocido

theorem parseRestriccionesAux_spec (nombres : List String) :
    ∀ (filas : List RestrInput) (k : Nat),
      parseRestriccionesAux nombres k filas =
        (filas.filterMap (normalizarFila nombres),
         (filas.enumFrom k).filterMap
           (fun p => (clasificaFila nombres p.2).map (fun e => (p.1 + 1, e)))) := by
  intro filas
  induction filas with
  | nil => intro k; rfl
  | cons r rest ih =>
    intro k
    by_cases hp : r.parametro ∈ nombres
    · cases hop : canonicalizarOperador r.operador with
      | some opc =>
        cases hv : pyFloat r.valor with
        | some v =>
          simp [parseRestriccionesAux, normalizarFila, clasificaFila, hp, hop, hv,
            List.enumFrom, ih (k + 1)]
        | none =>
          simp [parseRestriccionesAux, normalizarFila, clasificaFila, hp, hop, hv,
            List.enumFrom, ih (k + 1)]
      | none =>
        simp [parseRestriccionesAux, normalizarFila, clasificaFila, hp, hop,
          List.enumFrom, ih (k + 1)]
    · simp [parseRestriccionesAux, normalizarFila, clasificaFila, hp,
        List.enumFrom, ih (k + 1)]

theorem parseRestricciones_fst (filas : List RestrInput) (nombres : List String) :
    (parseRestricciones filas nombres).1 = filas.filterMap (normalizarFila nombres) := by
  rw [parseRestricciones, parseRestriccionesAux_spec]

theorem parseRestricciones_snd (filas : List RestrInput) (nombres : List String) :
    (parseRestricciones filas nombres).2 =
      (filas.enumFrom 0).filterMap
        (fun p => (clasificaFila nombres p.2).map (fun e => (p.1 + 1, e))) := by
  rw [parseRestricciones, parseRestriccionesAux_spec]

theorem clasificaFila_en_errores (nombres : List String)
    (filas : List RestrInput) (k i : Nat) (h : i < filas.length) (e : RowError)
    (hc : clasificaFila nombres (filas.get ⟨i, h⟩) = some e) :
    (k + i + 1, e) ∈ (parseRestriccionesAux nombres k filas).2 := by
  rw [parseRestriccionesAux_spec]
  apply List.mem_filterMap.mpr
  refine ⟨(k + i, filas.get ⟨i, h⟩), ?_, ?_⟩
  · exact List.mk_add_mem_enumFrom_iff_getElem?.mpr (by simp [List.getElem?_eq_getElem h])
  · simpa [List.get_eq_getElem] using hc

/-- Tags produced by the canonicalizer lie in the canonical tag set. -/
theorem canonicalizarOperador_mem_etiquetas (op t : String)
    (h : canonicalizarOperador op = some t) : t ∈ etiquetasCanonicas := by
  unfold canonicalizarOperador at h
  split_ifs at h <;> simp_all [etiquetasCanonicas]

/-- C3 (confirmed).  Operator canonicalization maps the six UI symbols
bijectively onto the six canonical tags (≤↦<=, ≥↦>=, =↦==, <↦<, >↦>,
≠↦!=); it is injective on the symbol set and onto the tag set; every
symbol outside the six-symbol set canonicalizes to no tag, and a row
carrying such a symbol (whose parameter is recognized, so that the
operator check at solvers.py line 39 is the one that fires) is reported
with the 1-based index of the offending row. -/
theorem canonicalizacionOperador_biyectiva :
    (canonicalizarOperador "≤" = some "<=" ∧ canonicalizarOperador "≥" = some ">=" ∧
     canonicalizarOperador "=" = some "==" ∧ canonicalizarOperador "<" = some "<" ∧
     canonicalizarOperador ">" = some ">" ∧ canonicalizarOperador "≠" = some "!=") ∧
    (∀ a ∈ simbolosOperador, ∀ b ∈ simbolosOperador,
      a ≠ b → canonicalizarOperador a ≠ canonicalizarOperador b) ∧
    (∀ t ∈ etiquetasCanonicas, ∃ s ∈ simbolosOperador, canonicalizarOperador s = some t) ∧
    (∀ op : String, op ∉ simbolosOperador → canonicalizarOperador op = none) ∧
    (∀ (filas : List RestrInput) (nombres : List String) (i : Nat) (h : i < filas.length),
      (filas.get ⟨i, h⟩).parametro ∈ nombres →
      (filas.get ⟨i, h⟩).operador ∉ simbolosOperador →
      (i + 1, RowError.operadorNoValido) ∈ (parseRestricciones filas nombres).2) := by
  refine ⟨by decide, by decide, by decide, ?_, ?_⟩
  · intro op hop
    simp [simbolosOperador] at hop
    obtain ⟨h1, h2, h3, h4, h5, h6⟩ := hop
    simp [canonicalizarOperador, h1, h2, h3, h4, h5, h6]
  · intro filas nombres i h hp hop
    have hnone : canonicalizarOperador (filas.get ⟨i, h⟩).operador = none := by
      simp [simbolosOperador] at hop
      obtain ⟨h1, h2, h3, h4, h5, h6⟩ := hop
      simp [canonicalizarOperador, h1, h2, h3, h4, h5, h6]
    have hc : clasificaFila nombres (filas.get ⟨i, h⟩) = some RowError.operadorNoValido := by
      unfold clasificaFila
      rw [if_pos hp, hnone]
    have := clasificaFila_en_errores nombres filas 0 i h RowError.operadorNoValido hc
    simpa [parseRestricciones] using this

/-- Witness for C3: the seventh symbol `≈` is rejected, and a row using it
is reported as row 1. -/
theorem canonicalizacionOperador_biyectiva_testigo :
    canonicalizarOperador "≈" = none ∧
    (1, RowError.operadorNoValido) ∈
      (parseRestricciones [⟨"A", "≈", RawValue.num 1⟩] ["A"]).2 := by
  have h := canonicalizacionOperador_biyectiva
  exact ⟨h.2.2.2.1 "≈" (by decide),
    h.2.2.2.2 [⟨"A", "≈", RawValue.num 1⟩] ["A"] 0 (by decide) (by decide) (by decide)⟩

/-- C4 (confirmed).  The linear-mode normalizer processes every row: its
first component is exactly the per-row valid rows in input order (unknown
parameter, invalid operator or non-coercible value make a row contribute
nothing), with the operator canonicalized and the value coerced to a
number; its second component reports, for each invalid row, the 1-based
row index with the first applicable diagnostic, and nothing else.  In
particular a bad row never stops the remaining rows from being processed. -/
theorem parseRestricciones_caracterizacion (filas : List RestrInput) (nombres : List String) :
    (parseRestricciones filas nombres).1 = filas.filterMap (normalizarFila nombres) ∧
    (parseRestricciones filas nombres).2 =
      (filas.enumFrom 0).filterMap
        (fun p => (clasificaFila nombres p.2).map (fun e => (p.1 + 1, e))) :=
  ⟨parseRestricciones_fst filas nombres, parseRestricciones_snd filas nombres⟩

/-- Identifiers with all space characters replaced are space-free. -/
theorem reemplazaEspacios_sin_espacios (s : List Char) :
    ∀ c ∈ reemplazaEspacios s, c ≠ ' ' := by
  intro c hc
  obtain ⟨d, _, hd⟩ := List.mem_map.mp hc
  by_cases h : d = ' '
  · rw [h, if_pos rfl] at hd
    rw [← hd]
    decide
  · rw [if_neg h] at hd
    rw [← hd]
    exact h

theorem reemplazaEspacios_eq_nil (s : List Char) :
    reemplazaEspacios s = [] ↔ s = [] := by
  simp [reemplazaEspacios]

/-- C7 counterexample.  On the input `a<TAB>b` the parser emits the single
identifier `a<TAB>b`, whose interior character is the whitespace character
`TAB`: Python's `replace(" ", "_")` rewrites only U+0020, so the claim that
no emitted identifier contains interior whitespace fails. -/
theorem parse_lista_conserva_tabulador :
    parse_lista ['a', '\t', 'b'] = [['a', '\t', 'b']] ∧
    ((parse_lista ['a', '\t', 'b']).any
      (fun idt => ((idt.drop 1).dropLast).any esEspacioPython)) = true := by
  constructor
  · rfl
  · rfl

/-- C7 as amended (proved).  For every input text the parser returns the
ordered comma-separated segments, trimmed of leading and trailing
whitespace, with interior space characters (U+0020) replaced by underscore
and empty segments dropped; consequently no emitted identifier contains a
space character (other whitespace, such as tabs, may remain), and the
number of emitted identifiers is at most the number of comma-separated
segments. -/
theorem parse_lista_caracterizacion (texto : List Char) :
    (parse_lista texto).length ≤ (separaPorComas texto).length ∧
    (∀ idt ∈ parse_lista texto, idt ≠ [] ∧ ∀ c ∈ idt, c ≠ ' ') ∧
    parse_lista texto =
      ((separaPorComas texto).map (fun seg => reemplazaEspacios (pyStrip seg))).filter
        (fun s => !s.isEmpty) := by
  refine ⟨List.length_filterMap_le _ _, ?_, ?_⟩
  · intro idt hid
    obtain ⟨seg, _, hseg⟩ := List.mem_filterMap.mp hid
    have hseg2 : (if pyStrip seg = [] then (none : Option (List Char))
        else some (reemplazaEspacios (pyStrip seg))) = some idt := hseg
    by_cases h : pyStrip seg = []
    · rw [if_pos h] at hseg2
      exact absurd hseg2 (by simp)
    · rw [if_neg h] at hseg2
      obtain rfl := Option.some_injective _ hseg2
      exact ⟨by simpa using (reemplazaEspacios_eq_nil (pyStrip seg)).not.mpr h,
        reemplazaEspacios_sin_espacios _⟩
  · unfold parse_lista
    induction separaPorComas texto with
    | nil => rfl
    | cons a l ih =>
      by_cases h : pyStrip a = []
      · simp [h, List.filterMap_cons, List.filter_cons, reemplazaEspacios_eq_nil, ih]
      · simp only [List.filterMap_cons, List.map_cons, List.filter_cons]
        rw [if_neg h]
        have : (!(reemplazaEspacios (pyStrip a)).isEmpty) = true := by
          simp [List.isEmpty_iff, reemplazaEspacios_eq_nil, h]
        rw [this]
        simp [ih]

/-- Witness for C7: on `"a, b c"` the characterization applies; the emitted
identifier `b_c` is non-empty and space-free, and at most two identifiers
come out of the two comma segments. -/
theorem parse_lista_caracterizacion_testigo :
    (['b', '_', 'c'] ≠ ([] : List Char) ∧ ∀ c ∈ ['b', '_', 'c'], c ≠ ' ') ∧
    (parse_lista ['a', ',', ' ', 'b', ' ', 'c']).length ≤
      (separaPorComas ['a', ',', ' ', 'b', ' ', 'c']).length := by
  have h := parse_lista_caracterizacion ['a', ',', ' ', 'b', ' ', 'c']
  exact ⟨h.2.1 ['b', '_', 'c'] (by decide), h.1⟩

/-! ## Expression Evaluator (the `eval(expr, {}, binding)` calls) -/

/-- Abstract syntax of the arithmetic expressions handed to Python `eval`
at solvers.py lines 370, 379 (NLP), 469, 478 (MILP) and 594, 603 (MINLP):
numeric literals, identifiers, binary `+ - * / **` and unary minus.  The
string-to-AST step of CPython's parser is not modelled; claims concern
evaluation, not tokenization. -/
inductive PyExpr where
  | num (q : Rat)
  | name (n : String)
  | suma (a b : PyExpr)
  | resta (a b : PyExpr)
  | prod (a b : PyExpr)
  | cociente (a b : PyExpr)
  | potencia (a b : PyExpr)
  | negacion (a : PyExpr)
deriving DecidableEq

/-- The algebraic handles evaluation manipulates: Pyomo expression objects
over the declared variables, numeric constants, and the function objects
that Python's builtins put in scope. -/
inductive Term where
  | const (q : Rat)
  | var (v : String)
  | builtinObj (n : String)
  | suma (a b : Term)
  | resta (a b : Term)
  | prod (a b : Term)
  | cociente (a b : Term)
  | potencia (a b : Term)
  | negacion (a : Term)
deriving DecidableEq

/-- The Python exceptions the constraint-building statements can raise.
`nameError` and `typeError` come from `eval`; `desigualdadEstricta` is the
error Pyomo's `Constraint` raises when `model.restricciones.add` receives a
strict-inequality expression (`expr < v` or `expr > v`); `conversionABool`
is the "cannot convert non-constant Pyomo expression to bool" error raised
by `expr != v`, whose default `__ne__` truth-tests the Pyomo
`EqualityExpression`.  In the expression-mode classes all four are caught
by the surrounding `try`; in LP/IP the latter two are uncaught. -/
inductive PyErr where
  | nameError (n : String)
  | typeError
  | desigualdadEstricta
  | conversionABool
deriving DecidableEq

/-- A fragment of Python's ambient builtins.  The source calls
`eval(expr, {}, binding)` with an EMPTY globals dictionary; CPython then
injects `__builtins__` into it, so builtin names resolve even though they
are not in the binding.  `__debug__` is the boolean `True` (numerically 1);
the function objects are opaque non-numeric handles. -/
def pyBuiltins : List (String × Term) :=
  [("__debug__", Term.const 1), ("abs", Term.builtinObj "abs"),
   ("min", Term.builtinObj "min"), ("max", Term.builtinObj "max"),
   ("pow", Term.builtinObj "pow"), ("round", Term.builtinObj "round"),
   ("sum", Term.builtinObj "sum"), ("len", Term.builtinObj "len")]

/-- Arithmetic on a builtin function object raises `TypeError`. -/
def esObjetoNoNumerico : Term → Bool
  | Term.builtinObj _ => true
  | _ => false

/-- Embedding of `eval(expr, {}, binding)` as used by the NLP, MILP and
MINLP model builders.  Name resolution follows CPython's `LOAD_NAME`:
locals (the supplied binding) first, then the (empty) globals, then the
injected builtins; a name in neither raises `NameError`.  Arithmetic
builds symbolic Pyomo terms; combining a builtin function object with an
arithmetic operator raises `TypeError`.  Numeric exceptions of pure-constant
subexpressions (e.g. `ZeroDivisionError`) are not modelled; no claim
depends on them. -/
def evalPy : PyExpr → List (String × Term) → Except PyErr Term
  | PyExpr.num q, _ => Except.ok (Term.const q)
  | PyExpr.name n, env =>
    match env.lookup n with
    | some t => Except.ok t
    | none =>
      match pyBuiltins.lookup n with
      | some t => Except.ok t
      | none => Except.error (PyErr.nameError n)
  | PyExpr.suma a b, env => do
    let x ← evalPy a env
    let y ← evalPy b env
    if esObjetoNoNumerico x || esObjetoNoNumerico y then Except.error PyErr.typeError
    else Except.ok (Term.suma x y)
  | PyExpr.resta a b, env => do
    let x ← evalPy a env
    let y ← evalPy b env
    if esObjetoNoNumerico x || esObjetoNoNumerico y then Except.error PyErr.typeError
    else Except.ok (Term.resta x y)
  | PyExpr.prod a b, env => do
    let x ← evalPy a env
    let y ← evalPy b env
    if esObjetoNoNumerico x || esObjetoNoNumerico y then Except.error PyErr.typeError
    else Except.ok (Term.prod x y)
  | PyExpr.cociente a b, env => do
    let x ← evalPy a env
    let y ← evalPy b env
    if esObjetoNoNumerico x || esObjetoNoNumerico y then Except.error PyErr.typeError
    else Except.ok (Term.cociente x y)
  | PyExpr.potencia a b, env => do
    let x ← evalPy a env
    let y ← evalPy b env
    if esObjetoNoNumerico x || esObjetoNoNumerico y then Except.error PyErr.typeError
    else Except.ok (Term.potencia x y)
  | PyExpr.negacion a, env => do
    let x ← evalPy a env
    if esObjetoNoNumerico x then Except.error PyErr.typeError
    else Except.ok (Term.negacion x)

/-- The binding dictionaries built at solvers.py lines 370/379
(`{v: model.vars[v] for v in self.variables}`) and 466
(`{v: getattr(model, v) for v in ...}`): each declared variable name maps
to its model variable handle. -/
def ligaduraDeVariables (vs : List String) : List (String × Term) :=
  vs.map (fun v => (v, Term.var v))

/-- C1 (code bug).  The claim — and spec §4.3/§9 — require every identifier
outside the supplied binding to fail with an `ExpressionError`.  The code
instead calls `eval` with empty globals, into which CPython injects
`__builtins__`: the out-of-binding identifier `__debug__` resolves from the
ambient interpreter state to `True` (numerically 1), so the expression
`x + __debug__` evaluates successfully against the binding `{x}` instead of
failing. -/
theorem evalPy_resuelve_nombre_ambiente :
    evalPy (PyExpr.suma (PyExpr.name "x") (PyExpr.name "__debug__"))
        (ligaduraDeVariables ["x"]) =
      Except.ok (Term.suma (Term.var "x") (Term.const 1)) ∧
    evalPy (PyExpr.name "abs") (ligaduraDeVariables ["x"]) =
      Except.ok (Term.builtinObj "abs") := by
  constructor
  · rfl
  · rfl

/-! ## Decision-variable domains (`Var(...)` declarations per class) -/

/-- The Pyomo variable domains used across the five classes. -/
inductive PyoDomain where
  | nonNegativeReals
  | nonNegativeIntegers
  | reals
  | integers
deriving DecidableEq

/-- Objective sense (`maximize` / `minimize` passed as `sense=`). -/
inductive Sense where
  | maximize
  | minimize
deriving DecidableEq

/-- Model attribute lookup by name: the first binding wins, as for Python
attribute access on the dictionaries we model components with. -/
def buscaVar : List (String × PyoDomain) → String → Option PyoDomain
  | [], _ => none
  | p :: rest, v => if p.1 = v then some p.2 else buscaVar rest v

/-- Pointwise domain overwrite of a component list: every binding of name
`v` gets domain `d`, mirroring `model.vars[v].domain = Integers`
(solvers.py line 591). -/
def actualizaDominio (m : List (String × PyoDomain)) (v : String) (d : PyoDomain) :
    List (String × PyoDomain) :=
  m.map (fun p => if p.1 = v then (p.1, d) else p)

/-- Python `setattr(model, v, Var(domain=d))` (solvers.py lines 461, 463):
if the attribute already exists Pyomo logs a warning and REPLACES the
component (`Block.add_component` "implicitly replacing"); otherwise the new
component is appended. -/
def setattrVar (m : List (String × PyoDomain)) (v : String) (d : PyoDomain) :
    List (String × PyoDomain) :=
  if m.any (fun p => p.1 = v) then actualizaDominio m v d else m ++ [(v, d)]

/-- Element-indexed variable declaration `Var(indice, domain=d)`: one
variable of domain `d` per index value. -/
def declararVariablesIndexadas (d : PyoDomain) (indice : List String) :
    List (String × PyoDomain) :=
  indice.map (fun e => (e, d))

/-- LP decision variables (solvers.py line 86):
`model.x = Var(model.i, within=NonNegativeReals)`. -/
def LP.declararVariables (elementos : List String) : List (String × PyoDomain) :=
  declararVariablesIndexadas PyoDomain.nonNegativeReals elementos

/-- IP decision variables (solvers.py line 262):
`model.x = Var(model.i, domain=NonNegativeIntegers)`. -/
def IP.declararVariables (elementos : List String) : List (String × PyoDomain) :=
  declararVariablesIndexadas PyoDomain.nonNegativeIntegers elementos

/-- NLP decision variables (solvers.py line 367):
`model.vars = Var(self.variables, domain=Reals, initialize=1.0)`. -/
def NLP.declararVariables (vs : List String) : List (String × PyoDomain) :=
  declararVariablesIndexadas PyoDomain.reals vs

/-- MILP decision variables (solvers.py lines 460-463): one `setattr` per
integer name with `Var(domain=Integers)`, then one per continuous name with
`Var(domain=Reals)`. -/
def MILP.declararVariables (enteras continuas : List String) :
    List (String × PyoDomain) :=
  continuas.foldl (fun m v => setattrVar m v PyoDomain.reals)
    (enteras.foldl (fun m v => setattrVar m v PyoDomain.integers) [])

/-- MINLP decision variables (solvers.py lines 586-591):
`model.vars = Var(enteras + continuas, domain=Reals)` followed by
`model.vars[v].domain = Integers` for each integer name.  Duplicate names
in the combined index list are harmless here (Pyomo deduplicates the
implicit index set; every duplicate carries the same domain). -/
def MINLP.declararVariables (enteras continuas : List String) :
    List (String × PyoDomain) :=
  enteras.foldl (fun m v => actualizaDominio m v PyoDomain.integers)
    (declararVariablesIndexadas PyoDomain.reals (enteras ++ continuas))

theorem busca_actualizaDominio (m : List (String × PyoDomain)) (v w : String) (d : PyoDomain) :
    buscaVar (actualizaDominio m v d) w =
      if w = v then (buscaVar m v).map (fun _ => d) else buscaVar m w := by
  induction m with
  | nil =>
    simp only [actualizaDominio, List.map_nil, buscaVar]
    split <;> rfl
  | cons p rest ih =>
    simp only [actualizaDominio, List.map_cons] at ih ⊢
    by_cases hpv : p.1 = v
    · by_cases hw : p.1 = w
      · have hwv : w = v := hw.symm.trans hpv
        simp [buscaVar, hpv, hw, hwv]
      · have hwv : ¬w = v := fun he => hw (hpv.trans he.symm)
        have hvw : ¬v = w := fun he => hw (hpv.trans he)
        simp [buscaVar, hpv, hw, hwv, hvw, ih]
    · by_cases hw : p.1 = w
      · have hwv : ¬w = v := fun he => hpv (hw.trans he)
        simp [buscaVar, hpv, hw, hwv]
      · by_cases hwv : w = v
        · subst hwv
          simp [buscaVar, hpv, hw, ih]
        · simp [buscaVar, hpv, hw, hwv, ih]

theorem buscaVar_isSome_any (m : List (String × PyoDomain)) (v : String) :
    (buscaVar m v).isSome = m.any (fun p => p.1 = v) := by
  induction m with
  | nil => rfl
  | cons p rest ih =>
    by_cases h : p.1 = v <;> simp [buscaVar, h, ih]

theorem buscaVar_append (m m2 : List (String × PyoDomain)) (w : String) :
    buscaVar (m ++ m2) w = (buscaVar m w).orElse (fun _ => buscaVar m2 w) := by
  induction m with
  | nil => simp [buscaVar]
  | cons p rest ih =>
    by_cases h : p.1 = w <;> simp [buscaVar, h, ih]

theorem busca_setattrVar_self (m : List (String × PyoDomain)) (v : String) (d : PyoDomain) :
    buscaVar (setattrVar m v d) v = some d := by
  unfold setattrVar
  by_cases h : m.any (fun p => p.1 = v)
  · rw [if_pos h, busca_actualizaDominio, if_pos rfl]
    have : (buscaVar m v).isSome := by rw [buscaVar_isSome_any]; exact h
    obtain ⟨d0, hd0⟩ := Option.isSome_iff_exists.mp this
    simp [hd0]
  · rw [if_neg h, buscaVar_append]
    have : (buscaVar m v).isSome = false := by
      rw [buscaVar_isSome_any]; exact Bool.not_eq_true _ ▸ (by simpa using h)
    have hnone : buscaVar m v = none := by
      cases he : buscaVar m v
      · rfl
      · rw [he] at this; simp at this
    simp [hnone, buscaVar]

theorem busca_setattrVar_otro (m : List (String × PyoDomain)) (v w : String) (d : PyoDomain)
    (h : w ≠ v) : buscaVar (setattrVar m v d) w = buscaVar m w := by
  unfold setattrVar
  by_cases ha : m.any (fun p => p.1 = v)
  · rw [if_pos ha, busca_actualizaDominio, if_neg h]
  · rw [if_neg ha, buscaVar_append]
    have hvw : ¬v = w := fun he => h he.symm
    have : buscaVar [(v, d)] w = none := by simp [buscaVar, hvw]
    rw [this]
    cases buscaVar m w <;> rfl

theorem busca_fold_setattr_nmem (d : PyoDomain) :
    ∀ (vs : List String) (m : List (String × PyoDomain)) (w : String), w ∉ vs →
      buscaVar (vs.foldl (fun m v => setattrVar m v d) m) w = buscaVar m w := by
  intro vs
  induction vs with
  | nil => intro m w _; rfl
  | cons v rest ih =>
    intro m w hw
    have h1 : w ≠ v := fun he => hw (he ▸ List.mem_cons_self v rest)
    have h2 : w ∉ rest := fun he => hw (List.mem_cons_of_mem v he)
    simpa [List.foldl_cons, ih (setattrVar m v d) w h2] using
      busca_setattrVar_otro m v w d h1

theorem busca_fold_setattr_mem (d : PyoDomain) :
    ∀ (vs : List String) (m : List (String × PyoDomain)) (w : String), w ∈ vs →
      buscaVar (vs.foldl (fun m v => setattrVar m v d) m) w = some d := by
  intro vs
  induction vs with
  | nil => intro m w hw; exact absurd hw (List.not_mem_nil w)
  | cons v rest ih =>
    intro m w hw
    by_cases h2 : w ∈ rest
    · simpa [List.foldl_cons] using ih (setattrVar m v d) w h2
    · have hv : w = v := by
        rcases List.mem_cons.mp hw with h | h
        · exact h
        · exact absurd h h2
      subst hv
      simpa [List.foldl_cons, busca_fold_setattr_nmem d rest (setattrVar m w d) w h2] using
        busca_setattrVar_self m w d

theorem busca_fold_act_nmem (d : PyoDomain) :
    ∀ (vs : List String) (m : List (String × PyoDomain)) (w : String), w ∉ vs →
      buscaVar (vs.foldl (fun m v => actualizaDominio m v d) m) w = buscaVar m w := by
  intro vs
  induction vs with
  | nil => intro m w _; rfl
  | cons v rest ih =>
    intro m w hw
    have h1 : w ≠ v := fun he => hw (he ▸ List.mem_cons_self v rest)
    have h2 : w ∉ rest := fun he => hw (List.mem_cons_of_mem v he)
    rw [List.foldl_cons, ih (actualizaDominio m v d) w h2, busca_actualizaDominio, if_neg h1]

theorem busca_fold_act_mem (d : PyoDomain) :
    ∀ (vs : List String) (m : List (String × PyoDomain)) (w : String), w ∈ vs →
      buscaVar (vs.foldl (fun m v => actualizaDominio m v d) m) w =
        (buscaVar m w).map (fun _ => d) := by
  intro vs
  induction vs with
  | nil => intro m w hw; exact absurd hw (List.not_mem_nil w)
  | cons v rest ih =>
    intro m w hw
    by_cases h2 : w ∈ rest
    · rw [List.foldl_cons, ih (actualizaDominio m v d) w h2, busca_actualizaDominio]
      by_cases hv : w = v
      · subst hv
        cases buscaVar m w <;> simp
      · rw [if_neg hv]
    · have hv : w = v := by
        rcases List.mem_cons.mp hw with h | h
        · exact h
        · exact absurd h h2
      subst hv
      rw [List.foldl_cons, busca_fold_act_nmem d rest _ w h2, busca_actualizaDominio, if_pos rfl]

theorem busca_declararIndexadas (d : PyoDomain) (l : List String) (w : String) :
    buscaVar (declararVariablesIndexadas d l) w = if w ∈ l then some d else none := by
  induction l with
  | nil => simp [declararVariablesIndexadas, buscaVar]
  | cons e rest ih =>
    by_cases h : e = w
    · subst h
      simp [declararVariablesIndexadas, buscaVar]
    · have h2 : ¬w = e := fun he => h he.symm
      by_cases hm : w ∈ rest <;>
        simp [declararVariablesIndexadas, buscaVar, h, h2, hm] at ih ⊢ <;>
          simpa [declararVariablesIndexadas] using ih

/-- C8 counterexample.  Declare `x` both as an integer and as a continuous
variable in MILP: the second `setattr(model, "x", Var(domain=Reals))`
replaces the integer component, so the declared INTEGER variable `x` ends
with continuous domain — the claim that every declared integer variable has
integer domain fails on this input. -/
theorem milp_variable_duplicada :
    "x" ∈ ["x"] ∧
    buscaVar (MILP.declararVariables ["x"] ["x"]) "x" = some PyoDomain.reals ∧
    buscaVar (MILP.declararVariables ["x"] ["x"]) "x" ≠ some PyoDomain.integers := by
  refine ⟨by decide, by rfl, by decide⟩

/-- C8 as amended (proved).  LP declares one continuous non-negative
variable per element; IP one non-negative integer variable per element;
NLP one free continuous variable of unrestricted sign per declared name;
and — provided no name is declared both integer and continuous — MILP and
MINLP give every declared integer variable integer domain and every
declared continuous variable continuous domain. -/
theorem dominiosVariablesPorClase (elementos ents conts vs : List String) :
    (∀ e ∈ elementos, buscaVar (LP.declararVariables elementos) e =
        some PyoDomain.nonNegativeReals) ∧
    (∀ e ∈ elementos, buscaVar (IP.declararVariables elementos) e =
        some PyoDomain.nonNegativeIntegers) ∧
    (∀ v ∈ vs, buscaVar (NLP.declararVariables vs) v = some PyoDomain.reals) ∧
    ((∀ v ∈ ents, v ∉ conts) →
      (∀ v ∈ ents, buscaVar (MILP.declararVariables ents conts) v =
          some PyoDomain.integers) ∧
      (∀ v ∈ conts, buscaVar (MILP.declararVariables ents conts) v =
          some PyoDomain.reals) ∧
      (∀ v ∈ ents, buscaVar (MINLP.declararVariables ents conts) v =
          some PyoDomain.integers) ∧
      (∀ v ∈ conts, buscaVar (MINLP.declararVariables ents conts) v =
          some PyoDomain.reals)) := by
  refine ⟨?_, ?_, ?_, ?_⟩
  · intro e he
    rw [LP.declararVariables, busca_declararIndexadas, if_pos he]
  · intro e he
    rw [IP.declararVariables, busca_declararIndexadas, if_pos he]
  · intro v hv
    rw [NLP.declararVariables, busca_declararIndexadas, if_pos hv]
  · intro hdisj
    refine ⟨?_, ?_, ?_, ?_⟩
    · intro v hv
      rw [MILP.declararVariables, busca_fold_setattr_nmem _ _ _ _ (hdisj v hv),
        busca_fold_setattr_mem _ _ _ _ hv]
    · intro v hv
      rw [MILP.declararVariables, busca_fold_setattr_mem _ _ _ _ hv]
    · intro v hv
      rw [MINLP.declararVariables, busca_fold_act_mem _ _ _ _ hv,
        busca_declararIndexadas, if_pos (List.mem_append_left conts hv)]
      rfl
    · intro v hv
      have hne : v ∉ ents := fun hvents => hdisj v hvents hv
      rw [MINLP.declararVariables, busca_fold_act_nmem _ _ _ _ hne,
        busca_declararIndexadas, if_pos (List.mem_append_right ents hv)]

/-- Witness for C8: with integer list `x` and continuous list `y, z` all
five classes give the stated domains. -/
theorem dominiosVariablesPorClase_testigo :
    buscaVar (LP.declararVariables ["Desk"]) "Desk" = some PyoDomain.nonNegativeReals ∧
    buscaVar (IP.declararVariables ["Caja1"]) "Caja1" = some PyoDomain.nonNegativeIntegers ∧
    buscaVar (NLP.declararVariables ["x1"]) "x1" = some PyoDomain.reals ∧
    buscaVar (MILP.declararVariables ["x"] ["y", "z"]) "x" = some PyoDomain.integers ∧
    buscaVar (MILP.declararVariables ["x"] ["y", "z"]) "y" = some PyoDomain.reals ∧
    buscaVar (MINLP.declararVariables ["x"] ["y", "z"]) "x" = some PyoDomain.integers ∧
    buscaVar (MINLP.declararVariables ["x"] ["y", "z"]) "z" = some PyoDomain.reals := by
  have h1 := dominiosVariablesPorClase ["Desk"] ["x"] ["y", "z"] ["x1"]
  have h2 := dominiosVariablesPorClase ["Caja1"] ["x"] ["y", "z"] ["x1"]
  have hd := h1.2.2.2 (by decide)
  exact ⟨h1.1 "Desk" (by decide), h2.2.1 "Caja1" (by decide), h1.2.2.1 "x1" (by decide),
    hd.1 "x" (by decide), hd.2.1 "y" (by decide), hd.2.2.1 "x" (by decide),
    hd.2.2.2 "z" (by decide)⟩

/-! ## Solver outcome and Result Interpreter -/

/-- Pyomo `SolverStatus`.  Pyomo compares its status enums to plain strings
by value, so the string tests of LP/IP/NLP/MINLP (`== 'ok'`) and the enum
tests of MILP (`== SolverStatus.ok`) denote the same predicate; one
inductive type models both spellings. -/
inductive SolverStatus where
  | ok
  | advertencia
  | fallo
  | abortado
  | desconocido
deriving DecidableEq

/-- Pyomo `TerminationCondition` (the sub-set of values relevant here). -/
inductive TerminationCondition where
  | optimal
  | infeasible
  | unbounded
  | maxIterations
  | otra
deriving DecidableEq

/-- The raw outcome the backend returns: status fields plus the values the
success branch would read back from the model (`model.objetivo()` and the
per-variable values). -/
structure RawSolverResult where
  status : SolverStatus
  termination : TerminationCondition
  objectiveValue : Rat
  variableValues : List (String × Rat)
deriving DecidableEq

/-- The two externally visible outcomes of the display block. -/
inductive Interpretacion where
  | optimal (valorObjetivo : Rat) (asignacion : List (String × Rat))
  | infeasibleOrError (status : SolverStatus) (termination : TerminationCondition)
deriving DecidableEq

/-- Embedding of the result-display block (solvers.py lines 114-120, and
verbatim at 286-292, 401-407, 501-512, 625-631):
`if resultado.solver.status == 'ok' and
resultado.solver.termination_condition == 'optimal'` shows the objective
value and every variable value, otherwise reports failure (MILP also
echoes the raw status and termination condition, which the failure
constructor retains). -/
def interpretarResultado (r : RawSolverResult) : Interpretacion :=
  if r.status = SolverStatus.ok ∧ r.termination = TerminationCondition.optimal then
    Interpretacion.optimal r.objectiveValue r.variableValues
  else
    Interpretacion.infeasibleOrError r.status r.termination

/-- C6 (confirmed).  The interpreter yields the optimal outcome — with the
backend's objective value and full variable mapping — exactly when the
backend reports ok status AND optimal termination; every other
status/termination combination yields `infeasibleOrError`, which carries
the raw status and termination for diagnostics and no variable mapping. -/
theorem interpretarResultado_dicotomia (r : RawSolverResult) :
    ((∃ v a, interpretarResultado r = Interpretacion.optimal v a) ↔
      (r.status = SolverStatus.ok ∧ r.termination = TerminationCondition.optimal)) ∧
    ((r.status = SolverStatus.ok ∧ r.termination = TerminationCondition.optimal) →
      interpretarResultado r = Interpretacion.optimal r.objectiveValue r.variableValues) ∧
    (¬(r.status = SolverStatus.ok ∧ r.termination = TerminationCondition.optimal) →
      interpretarResultado r = Interpretacion.infeasibleOrError r.status r.termination) := by
  unfold interpretarResultado
  by_cases h : r.status = SolverStatus.ok ∧ r.termination = TerminationCondition.optimal
  · rw [if_pos h]
    exact ⟨⟨fun _ => h, fun _ => ⟨r.objectiveValue, r.variableValues, rfl⟩⟩,
      fun _ => rfl, fun hn => absurd h hn⟩
  · rw [if_neg h]
    refine ⟨⟨fun ⟨v, a, hva⟩ => absurd hva (by simp), fun hc => absurd hc h⟩,
      fun hc => absurd hc h, fun _ => rfl⟩

/-- Witness for C6: an ok/optimal outcome is reported optimal with its
mapping; a warning/infeasible outcome is reported `infeasibleOrError`. -/
theorem interpretarResultado_dicotomia_testigo :
    interpretarResultado ⟨SolverStatus.ok, TerminationCondition.optimal, 280, [("Desk", 2)]⟩ =
      Interpretacion.optimal 280 [("Desk", 2)] ∧
    interpretarResultado
        ⟨SolverStatus.advertencia, TerminationCondition.infeasible, 0, []⟩ =
      Interpretacion.infeasibleOrError SolverStatus.advertencia
        TerminationCondition.infeasible := by
  constructor
  · exact (interpretarResultado_dicotomia
      ⟨SolverStatus.ok, TerminationCondition.optimal, 280, [("Desk", 2)]⟩).2.1 ⟨rfl, rfl⟩
  · exact (interpretarResultado_dicotomia
      ⟨SolverStatus.advertencia, TerminationCondition.infeasible, 0, []⟩).2.2 (by simp)

/-! ## Linear classes (LP, IP): state, validator, model builder, solve -/

/-- The instance attributes shared by the `LP` and `IP` classes
(solvers.py lines 7-12 and 212-217): declared elements, the parameter
tables (`{param name: {element: value}}`), the normalized constraint rows,
the objective parameter name and the objective sense. -/
structure EstadoLineal where
  elementos : List String
  parametros : List (String × List (String × Rat))
  restricciones : List Restriccion
  param_objetivo : String
  tipo_objetivo : Sense
deriving DecidableEq

/-- Python `set(a) == set(b)` on key lists: equality as sets. -/
def mismoConjunto (a b : List String) : Bool :=
  a.all (fun x => b.contains x) && b.all (fun x => a.contains x)

/-- True when the parameter's populated element set differs from the
declared element set — the condition `set(valores.keys()) !=
set(self.elementos)` of solvers.py line 65. -/
def coberturaInvalida (s : EstadoLineal) (nombre : String) : Bool :=
  !mismoConjunto (((s.parametros.lookup nombre).getD []).map (fun p => p.1)) s.elementos

/-- Embedding of `validar_parametros` (solvers.py lines 59-68, and verbatim
at 247-253): walk the declared parameter names; on the FIRST name whose
populated elements differ from the declared element set, report that one
name and return `False`; otherwise return `True`.  The returned list holds
the names reported via `st.error`. -/
def validarParametros (s : EstadoLineal) : List String → Bool × List String
  | [] => (true, [])
  | n :: rest =>
    if coberturaInvalida s n then (false, [n])
    else validarParametros s rest

/-- The comparisons that can actually enter a model.  Only `<=`, `>=` and
`==` ever construct: the strict and disequality branches raise inside
Pyomo before a constraint is added, so no constraint object carries them. -/
inductive CompOp where
  | le
  | ge
  | eq
deriving DecidableEq

/-- One linear constraint added to `model.restricciones`: the term
`sum(param[i] * x[i] for i in model.i)` compared to the right-hand side. -/
structure RestriccionLineal where
  parametro : String
  operador : CompOp
  rhs : Rat
deriving DecidableEq

/-- The `if/elif` operator dispatch of the linear builders (solvers.py
lines 96-107 and 270-281).  Each canonical tag satisfies exactly one
guard; a tag matching no branch adds nothing (the chain has no `else`).
The `<`, `>` and `!=` branches are error paths at run time:
`model.restricciones.add(expr < v)` / `add(expr > v)` is rejected by
Pyomo's `Constraint` (strict inequalities are not accepted), and
`expr != v` raises when its default `__ne__` truth-tests the Pyomo
equality expression; these exceptions are uncaught in LP/IP. -/
def despachoOperador (r : Restriccion) : Except PyErr (Option RestriccionLineal) :=
  if r.operador = "<=" then Except.ok (some ⟨r.parametro, CompOp.le, r.valor⟩)
  else if r.operador = ">=" then Except.ok (some ⟨r.parametro, CompOp.ge, r.valor⟩)
  else if r.operador = "==" then Except.ok (some ⟨r.parametro, CompOp.eq, r.valor⟩)
  else if r.operador = "<" then Except.error PyErr.desigualdadEstricta
  else if r.operador = ">" then Except.error PyErr.desigualdadEstricta
  else if r.operador = "!=" then Except.error PyErr.conversionABool
  else Except.ok none

/-- Number of guards of the operator dispatch chain a tag satisfies. -/
def ramasCoincidentes (op : String) : Nat :=
  (if op = "<=" then 1 else 0) + (if op = ">=" then 1 else 0) +
  (if op = "==" then 1 else 0) + (if op = "<" then 1 else 0) +
  (if op = ">" then 1 else 0) + (if op = "!=" then 1 else 0)

/-- Failures that abort a model build: an `AttributeError` from `getattr`
on an undeclared component, a failure in the objective statement, or a
failure inside the constraint loop (in the expression-mode classes the
latter two are caught by `try`, reported and followed by `return`; in the
linear classes a constraint-loop exception is an uncaught traceback —
either way the request ends before the solver is dispatched). -/
inductive BuildError where
  | atributoInexistente (nombre : String)
  | errorObjetivo (e : PyErr)
  | errorRestriccion (e : PyErr)
deriving DecidableEq

/-- The constraint loop of the linear builders (solvers.py lines 94-107):
`getattr(model, restr['parametro'])` raises `AttributeError` when the
parameter is not a model component (the loop is not inside a `try`, so
this aborts the build); then the operator dispatch either adds at most one
constraint and lets the loop continue, or raises (strict inequality or
`!=`), which also aborts the build at that row. -/
def construirFilas (claves : List String) :
    List Restriccion → Except BuildError (List RestriccionLineal)
  | [] => Except.ok []
  | r :: rest =>
    if r.parametro ∈ claves then
      match despachoOperador r with
      | Except.error e => Except.error (BuildError.errorRestriccion e)
      | Except.ok oc =>
        match construirFilas claves rest with
        | Except.error e => Except.error e
        | Except.ok cola =>
          match oc with
          | some c => Except.ok (c :: cola)
          | none => Except.ok cola
    else Except.error (BuildError.atributoInexistente r.parametro)

/-- The assembled linear Pyomo model: index set, parameter components,
decision variables with their domain, objective (sense and the parameter
whose linear combination it is) and the constraint list. -/
structure ModeloLineal where
  conjuntoI : List String
  parametros : List (String × List (String × Rat))
  variables_x : List (String × PyoDomain)
  sentido : Sense
  objetivoParam : String
  filas : List RestriccionLineal
deriving DecidableEq

/-- Shared body of `LP.construir_modelo` / `IP.construir_modelo`
(solvers.py lines 74-107 and 255-281, identical except for the variable
domain): declare the index set and parameter components, declare the
variables, build the objective `sum(getattr(model, param_objetivo)[i] *
x[i])` — an `AttributeError` if the objective parameter was never added —
then build the constraint rows. -/
def construirModeloLineal (dominio : PyoDomain) (s : EstadoLineal) :
    Except BuildError ModeloLineal :=
  let claves := s.parametros.map (fun p => p.1)
  if s.param_objetivo ∈ claves then
    match construirFilas claves s.restricciones with
    | Except.ok filas =>
      Except.ok ⟨s.elementos, s.parametros,
        declararVariablesIndexadas dominio s.elementos,
        s.tipo_objetivo, s.param_objetivo, filas⟩
    | Except.error e => Except.error e
  else Except.error (BuildError.atributoInexistente s.param_objetivo)

/-- `LP.construir_modelo` (solvers.py lines 74-120, model-assembly part). -/
def LP.construirModelo (s : EstadoLineal) : Except BuildError ModeloLineal :=
  construirModeloLineal PyoDomain.nonNegativeReals s

/-- `IP.construir_modelo` (solvers.py lines 255-292, model-assembly part). -/
def IP.construirModelo (s : EstadoLineal) : Except BuildError ModeloLineal :=
  construirModeloLineal PyoDomain.nonNegativeIntegers s

/-- Outcome of one solve request, as observed through the UI. -/
inductive Resultado where
  | validacionFallida (reportados : List String)
  | abortado (e : BuildError)
  | resuelto (solverName : String) (r : Interpretacion)
deriving DecidableEq

/-- The backend name a finished request was dispatched to, if any. -/
def solverDe : Resultado → Option String
  | Resultado.resuelto n _ => some n
  | _ => none

/-- GLPK, the mixed-integer-linear backend executable the source names in
`SolverFactory('glpk')` for LP, IP and MILP. -/
def backendLinealEntero : String := "glpk"

/-- Ipopt, the nonlinear backend executable the source names in
`SolverFactory('ipopt')` for NLP and MINLP. -/
def backendNoLineal : String := "ipopt"

/-- The LP solve path triggered by the "Resolver" button (solvers.py lines
203-205 plus construir_modelo lines 110-120): validate parameter coverage
(failure blocks everything), assemble the model (an uncaught exception also
ends the request), then call `SolverFactory('glpk').solve(model)` and
interpret the outcome. -/
def LP.resolver (s : EstadoLineal) (nombres : List String)
    (backend : ModeloLineal → RawSolverResult) : Resultado :=
  match validarParametros s nombres with
  | (true, _) =>
    match LP.construirModelo s with
    | Except.ok m => Resultado.resuelto "glpk" (interpretarResultado (backend m))
    | Except.error e => Resultado.abortado e
  | (false, errs) => Resultado.validacionFallida errs

/-- The IP solve path (solvers.py lines 347-349 plus lines 283-292). -/
def IP.resolver (s : EstadoLineal) (nombres : List String)
    (backend : ModeloLineal → RawSolverResult) : Resultado :=
  match validarParametros s nombres with
  | (true, _) =>
    match IP.construirModelo s with
    | Except.ok m => Resultado.resuelto "glpk" (interpretarResultado (backend m))
    | Except.error e => Resultado.abortado e
  | (false, errs) => Resultado.validacionFallida errs

theorem validarParametros_primera (s : EstadoLineal) :
    ∀ nombres : List String, (∃ n ∈ nombres, coberturaInvalida s n = true) →
      ∃ n, nombres.find? (coberturaInvalida s) = some n ∧
        validarParametros s nombres = (false, [n]) := by
  intro nombres
  induction nombres with
  | nil =>
    intro h
    obtain ⟨n, hn, _⟩ := h
    exact absurd hn (List.not_mem_nil n)
  | cons m rest ih =>
    intro h
    by_cases hm : coberturaInvalida s m = true
    · refine ⟨m, ?_, ?_⟩
      · rw [List.find?_cons_of_pos _ hm]
      · simp [validarParametros, hm]
    · have hm2 : coberturaInvalida s m = false := by simpa using hm
      have h2 : ∃ n ∈ rest, coberturaInvalida s n = true := by
        obtain ⟨n, hn, hcn⟩ := h
        rcases List.mem_cons.mp hn with rfl | hn2
        · exact absurd hcn hm
        · exact ⟨n, hn2, hcn⟩
      obtain ⟨n, hfind, hval⟩ := ih h2
      refine ⟨n, ?_, ?_⟩
      · rw [List.find?_cons_of_neg _ (by simp [hm2]), hfind]
      · simp [validarParametros, hm2, hval]

/-- A state with two declared but unpopulated parameters, used to exhibit
the first-violation-only reporting of `validar_parametros`. -/
def estadoDosParametrosVacios : EstadoLineal :=
  ⟨["e"], [("A", []), ("B", [])], [], "A", Sense.maximize⟩

/-- C2 counterexample.  Both declared parameters `A` and `B` are populated
on a strict subset (the empty set) of the declared elements, yet
`validar_parametros` reports only `A` — the first violator — because it
returns `False` immediately (solvers.py line 67); the claim that a
violation is reported for EACH such parameter fails. -/
theorem validarParametros_solo_primera :
    coberturaInvalida estadoDosParametrosVacios "A" = true ∧
    coberturaInvalida estadoDosParametrosVacios "B" = true ∧
    validarParametros estadoDosParametrosVacios ["A", "B"] = (false, ["A"]) ∧
    "B" ∉ (validarParametros estadoDosParametrosVacios ["A", "B"]).2 := by
  decide

/-- C2 as amended (proved).  Whenever some declared parameter's populated
element set is not exactly the declared element set, solve reports a
coverage violation for the FIRST such parameter in declaration order,
does not proceed to model construction, and never invokes the backend
solver: for every backend the result is the same validation failure. -/
theorem coberturaBloqueaResolucion (s : EstadoLineal) (nombres : List String)
    (h : ∃ n ∈ nombres, coberturaInvalida s n = true) :
    ∃ n, nombres.find? (coberturaInvalida s) = some n ∧
      coberturaInvalida s n = true ∧
      (∀ backend, LP.resolver s nombres backend = Resultado.validacionFallida [n]) ∧
      (∀ backend, IP.resolver s nombres backend = Resultado.validacionFallida [n]) := by
  obtain ⟨n, hfind, hval⟩ := validarParametros_primera s nombres h
  have hcn : coberturaInvalida s n = true := List.find?_some hfind
  refine ⟨n, hfind, hcn, ?_, ?_⟩
  · intro backend
    simp [LP.resolver, hval]
  · intro backend
    simp [IP.resolver, hval]

/-- Witness for C2: on the two-empty-parameter state, solving reports only
parameter `A` and no backend outcome is ever consulted. -/
theorem coberturaBloqueaResolucion_testigo :
    LP.resolver estadoDosParametrosVacios ["A", "B"]
        (fun _ => ⟨SolverStatus.ok, TerminationCondition.optimal, 0, []⟩) =
      Resultado.validacionFallida ["A"] := by
  obtain ⟨n, hfind, _, hLP, _⟩ :=
    coberturaBloqueaResolucion estadoDosParametrosVacios ["A", "B"]
      ⟨"A", by decide, by decide⟩
  have hA : (["A", "B"].find? (coberturaInvalida estadoDosParametrosVacios)) = some "A" := by
    decide
  have hn : n = "A" := by
    have := (hfind.symm.trans hA)
    exact Option.some_injective _ this
  subst hn
  exact hLP _

/-! ## Expression classes (NLP, MILP, MINLP): state, model builder, solve -/

/-- One constraint row in expression mode, as assembled by the UI
(solvers.py lines 430-434, 556-560, 670-674): an expression for the left
side, an operator tag pre-canonicalized at entry, and a numeric right side. -/
structure RestrExpr where
  expresion : PyExpr
  operador : String
  valor : Rat
deriving DecidableEq

/-- One constraint added to `model.restricciones` in expression mode. -/
structure RestriccionSimb where
  lhs : Term
  operador : CompOp
  rhs : Rat
deriving DecidableEq

/-- The `if/elif` operator dispatch of the expression-mode builders
(solvers.py lines 382-393, 481-492, 606-617): a canonical tag satisfies
exactly one guard; an unmatched tag adds nothing (no `else` branch).  As
in the linear builders, the `<` and `>` branches raise inside
`model.restricciones.add` (strict inequalities rejected) and `!=` raises
when the equality expression is truth-tested — here the exception lands in
the surrounding `try`. -/
def despachoOperadorSimb (lhs : Term) (op : String) (rhs : Rat) :
    Except PyErr (Option RestriccionSimb) :=
  if op = "<=" then Except.ok (some ⟨lhs, CompOp.le, rhs⟩)
  else if op = ">=" then Except.ok (some ⟨lhs, CompOp.ge, rhs⟩)
  else if op = "==" then Except.ok (some ⟨lhs, CompOp.eq, rhs⟩)
  else if op = "<" then Except.error PyErr.desigualdadEstricta
  else if op = ">" then Except.error PyErr.desigualdadEstricta
  else if op = "!=" then Except.error PyErr.conversionABool
  else Except.ok none

/-- The expression-mode constraint loop (solvers.py lines 377-396, 476-495,
601-620, identical in the three classes): evaluate each row's left side
against the binding inside a `try`, then dispatch the comparison and add
the constraint; an evaluation failure, a strict-inequality rejection or a
`!=` truth-test failure is caught, reported, and followed by RETURN,
aborting the whole build at that row; otherwise the loop continues. -/
def construirRestrSimb (ligadura : List (String × Term)) :
    List RestrExpr → Except PyErr (List RestriccionSimb)
  | [] => Except.ok []
  | r :: rest =>
    match evalPy r.expresion ligadura with
    | Except.error e => Except.error e
    | Except.ok lhs =>
      match despachoOperadorSimb lhs r.operador r.valor with
      | Except.error e => Except.error e
      | Except.ok oc =>
        match construirRestrSimb ligadura rest with
        | Except.error e => Except.error e
        | Except.ok cola =>
          match oc with
          | some c => Except.ok (c :: cola)
          | none => Except.ok cola

/-- The instance attributes of the `NLP` class (solvers.py lines 356-360).
The Python attribute `self.variables` is spelled `variablesDecl` because
`variables` is reserved in Lean. -/
structure EstadoNLP where
  variablesDecl : List String
  funcion_objetivo : PyExpr
  tipo_objetivo : Sense
  restricciones : List RestrExpr
deriving DecidableEq

/-- The instance attributes shared by the `MILP` and `MINLP` classes
(solvers.py lines 446-451 and 572-577). -/
structure EstadoMixto where
  variables_enteras : List String
  variables_continuas : List String
  funcion_objetivo : PyExpr
  tipo_objetivo : Sense
  restricciones : List RestrExpr
deriving DecidableEq

/-- The assembled expression-mode model. -/
structure ModeloExpr where
  variables_m : List (String × PyoDomain)
  sentido : Sense
  objetivo : Term
  restricciones : List RestriccionSimb
deriving DecidableEq

/-- `NLP.construir_modelo` (solvers.py lines 365-396, model-assembly part):
declare the variables, evaluate the objective expression against
`{v: model.vars[v]}` — reporting and returning on failure — then build the
constraint list, aborting on the first constraint whose expression fails
to evaluate. -/
def NLP.construirModelo (s : EstadoNLP) : Except BuildError ModeloExpr :=
  let ligadura := ligaduraDeVariables s.variablesDecl
  match evalPy s.funcion_objetivo ligadura with
  | Except.error e => Except.error (BuildError.errorObjetivo e)
  | Except.ok obj =>
    match construirRestrSimb ligadura s.restricciones with
    | Except.error e => Except.error (BuildError.errorRestriccion e)
    | Except.ok cs =>
      Except.ok ⟨NLP.declararVariables s.variablesDecl, s.tipo_objetivo, obj, cs⟩

/-- `MILP.construir_modelo` (solvers.py lines 456-495, model-assembly
part): declare the integer and continuous scalars, build the `all_vars`
binding over `variables_enteras + variables_continuas`, evaluate the
objective (report + return on failure), then the constraint loop with the
same abort-on-evaluation-failure policy. -/
def MILP.construirModelo (s : EstadoMixto) : Except BuildError ModeloExpr :=
  let ligadura := ligaduraDeVariables (s.variables_enteras ++ s.variables_continuas)
  match evalPy s.funcion_objetivo ligadura with
  | Except.error e => Except.error (BuildError.errorObjetivo e)
  | Except.ok obj =>
    match construirRestrSimb ligadura s.restricciones with
    | Except.error e => Except.error (BuildError.errorRestriccion e)
    | Except.ok cs =>
      Except.ok ⟨MILP.declararVariables s.variables_enteras s.variables_continuas,
        s.tipo_objetivo, obj, cs⟩

/-- `MINLP.construir_modelo` (solvers.py lines 582-620, model-assembly
part): indexed variables over the combined name list with the integer
domains overwritten, the binding `{v: model.vars[v] for v in model.vars}`,
then the same objective and constraint-loop policy as MILP. -/
def MINLP.construirModelo (s : EstadoMixto) : Except BuildError ModeloExpr :=
  let ligadura := ligaduraDeVariables (s.variables_enteras ++ s.variables_continuas)
  match evalPy s.funcion_objetivo ligadura with
  | Except.error e => Except.error (BuildError.errorObjetivo e)
  | Except.ok obj =>
    match construirRestrSimb ligadura s.restricciones with
    | Except.error e => Except.error (BuildError.errorRestriccion e)
    | Except.ok cs =>
      Except.ok ⟨MINLP.declararVariables s.variables_enteras s.variables_continuas,
        s.tipo_objetivo, obj, cs⟩

/-- The NLP solve path (solvers.py lines 438-439 plus 398-407):
`SolverFactory('ipopt')` runs only if the build returned normally. -/
def NLP.resolver (s : EstadoNLP) (backend : ModeloExpr → RawSolverResult) : Resultado :=
  match NLP.construirModelo s with
  | Except.ok m => Resultado.resuelto "ipopt" (interpretarResultado (backend m))
  | Except.error e => Resultado.abortado e

/-- The MILP solve path (solvers.py lines 564-565 plus 498-512):
`SolverFactory('glpk')` runs only if the build returned normally. -/
def MILP.resolver (s : EstadoMixto) (backend : ModeloExpr → RawSolverResult) : Resultado :=
  match MILP.construirModelo s with
  | Except.ok m => Resultado.resuelto "glpk" (interpretarResultado (backend m))
  | Except.error e => Resultado.abortado e

/-- The MINLP solve path (solvers.py lines 678-679 plus 622-631):
`SolverFactory('ipopt')` runs only if the build returned normally. -/
def MINLP.resolver (s : EstadoMixto) (backend : ModeloExpr → RawSolverResult) : Resultado :=
  match MINLP.construirModelo s with
  | Except.ok m => Resultado.resuelto "ipopt" (interpretarResultado (backend m))
  | Except.error e => Resultado.abortado e

theorem construirRestrSimb_error (ligadura : List (String × Term)) :
    ∀ rs : List RestrExpr,
      (∃ r ∈ rs, ∃ e, evalPy r.expresion ligadura = Except.error e) →
      ∃ e, construirRestrSimb ligadura rs = Except.error e := by
  intro rs
  induction rs with
  | nil =>
    intro h
    obtain ⟨r, hr, _⟩ := h
    exact absurd hr (List.not_mem_nil r)
  | cons r rest ih =>
    intro h
    cases heval : evalPy r.expresion ligadura with
    | error e => exact ⟨e, by simp [construirRestrSimb, heval]⟩
    | ok lhs =>
      have h2 : ∃ r2 ∈ rest, ∃ e, evalPy r2.expresion ligadura = Except.error e := by
        obtain ⟨r2, hr2, e, he⟩ := h
        rcases List.mem_cons.mp hr2 with rfl | hmem
        · rw [heval] at he
          exact absurd he (by simp)
        · exact ⟨r2, hmem, e, he⟩
      obtain ⟨e, htail⟩ := ih h2
      cases hd : despachoOperadorSimb lhs r.operador r.valor with
      | error e2 => exact ⟨e2, by simp [construirRestrSimb, heval, hd]⟩
      | ok oc => exact ⟨e, by simp [construirRestrSimb, heval, hd, htail]⟩

/-- C5 (confirmed).  In the expression-mode classes (NLP, MILP, MINLP), a
failing objective evaluation aborts the build with the objective error
before any backend call, and — when the objective evaluates — a failing
constraint evaluation aborts the build with a constraint error before any
backend call: in both cases no solver is dispatched for the request, for
every conceivable backend. -/
theorem expresionFallidaAbortaResolucion (sN : EstadoNLP) (sM sQ : EstadoMixto) :
    ((∀ e, evalPy sN.funcion_objetivo (ligaduraDeVariables sN.variablesDecl) =
        Except.error e →
      NLP.construirModelo sN = Except.error (BuildError.errorObjetivo e) ∧
      ∀ backend, solverDe (NLP.resolver sN backend) = none) ∧
     ((∃ t, evalPy sN.funcion_objetivo (ligaduraDeVariables sN.variablesDecl) =
         Except.ok t) →
      (∃ r ∈ sN.restricciones, ∃ e, evalPy r.expresion
          (ligaduraDeVariables sN.variablesDecl) = Except.error e) →
      (∃ e2, NLP.construirModelo sN = Except.error (BuildError.errorRestriccion e2)) ∧
      ∀ backend, solverDe (NLP.resolver sN backend) = none)) ∧
    ((∀ e, evalPy sM.funcion_objetivo
        (ligaduraDeVariables (sM.variables_enteras ++ sM.variables_continuas)) =
        Except.error e →
      MILP.construirModelo sM = Except.error (BuildError.errorObjetivo e) ∧
      ∀ backend, solverDe (MILP.resolver sM backend) = none) ∧
     ((∃ t, evalPy sM.funcion_objetivo
         (ligaduraDeVariables (sM.variables_enteras ++ sM.variables_continuas)) =
         Except.ok t) →
      (∃ r ∈ sM.restricciones, ∃ e, evalPy r.expresion
          (ligaduraDeVariables (sM.variables_enteras ++ sM.variables_continuas)) =
          Except.error e) →
      (∃ e2, MILP.construirModelo sM = Except.error (BuildError.errorRestriccion e2)) ∧
      ∀ backend, solverDe (MILP.resolver sM backend) = none)) ∧
    ((∀ e, evalPy sQ.funcion_objetivo
        (ligaduraDeVariables (sQ.variables_enteras ++ sQ.variables_continuas)) =
        Except.error e →
      MINLP.construirModelo sQ = Except.error (BuildError.errorObjetivo e) ∧
      ∀ backend, solverDe (MINLP.resolver sQ backend) = none) ∧
     ((∃ t, evalPy sQ.funcion_objetivo
         (ligaduraDeVariables (sQ.variables_enteras ++ sQ.variables_continuas)) =
         Except.ok t) →
      (∃ r ∈ sQ.restricciones, ∃ e, evalPy r.expresion
          (ligaduraDeVariables (sQ.variables_enteras ++ sQ.variables_continuas)) =
          Except.error e) →
      (∃ e2, MINLP.construirModelo sQ = Except.error (BuildError.errorRestriccion e2)) ∧
      ∀ backend, solverDe (MINLP.resolver sQ backend) = none)) := by
  refine ⟨⟨?_, ?_⟩, ⟨?_, ?_⟩, ⟨?_, ?_⟩⟩
  · intro e he
    exact ⟨by simp [NLP.construirModelo, he],
      fun backend => by simp [NLP.resolver, NLP.construirModelo, he, solverDe]⟩
  · intro hobj hc
    obtain ⟨t, ht⟩ := hobj
    obtain ⟨e, herr⟩ := construirRestrSimb_error _ sN.restricciones hc
    exact ⟨⟨e, by simp [NLP.construirModelo, ht, herr]⟩,
      fun backend => by simp [NLP.resolver, NLP.construirModelo, ht, herr, solverDe]⟩
  · intro e he
    exact ⟨by simp [MILP.construirModelo, he],
      fun backend => by simp [MILP.resolver, MILP.construirModelo, he, solverDe]⟩
  · intro hobj hc
    obtain ⟨t, ht⟩ := hobj
    obtain ⟨e, herr⟩ := construirRestrSimb_error _ sM.restricciones hc
    exact ⟨⟨e, by simp [MILP.construirModelo, ht, herr]⟩,
      fun backend => by simp [MILP.resolver, MILP.construirModelo, ht, herr, solverDe]⟩
  · intro e he
    exact ⟨by simp [MINLP.construirModelo, he],
      fun backend => by simp [MINLP.resolver, MINLP.construirModelo, he, solverDe]⟩
  · intro hobj hc
    obtain ⟨t, ht⟩ := hobj
    obtain ⟨e, herr⟩ := construirRestrSimb_error _ sQ.restricciones hc
    exact ⟨⟨e, by simp [MINLP.construirModelo, ht, herr]⟩,
      fun backend => by simp [MINLP.resolver, MINLP.construirModelo, ht, herr, solverDe]⟩

/-- Witness for C5: an NLP request whose objective references the unbound
name `q` aborts with the objective error and dispatches no solver, and a
MILP request with a sound objective but a constraint referencing the
unbound name `w` aborts with a constraint error and dispatches no solver. -/
theorem expresionFallidaAbortaResolucion_testigo :
    NLP.construirModelo ⟨["x"], PyExpr.name "q", Sense.maximize, []⟩ =
      Except.error (BuildError.errorObjetivo (PyErr.nameError "q")) ∧
    solverDe (NLP.resolver ⟨["x"], PyExpr.name "q", Sense.maximize, []⟩
      (fun _ => ⟨SolverStatus.ok, TerminationCondition.optimal, 0, []⟩)) = none ∧
    (∃ e2, MILP.construirModelo
        ⟨["x"], [], PyExpr.num 1, Sense.minimize, [⟨PyExpr.name "w", "<=", 5⟩]⟩ =
      Except.error (BuildError.errorRestriccion e2)) ∧
    solverDe (MILP.resolver
      ⟨["x"], [], PyExpr.num 1, Sense.minimize, [⟨PyExpr.name "w", "<=", 5⟩]⟩
      (fun _ => ⟨SolverStatus.ok, TerminationCondition.optimal, 0, []⟩)) = none := by
  have h := expresionFallidaAbortaResolucion
    ⟨["x"], PyExpr.name "q", Sense.maximize, []⟩
    ⟨["x"], [], PyExpr.num 1, Sense.minimize, [⟨PyExpr.name "w", "<=", 5⟩]⟩
    ⟨[], [], PyExpr.num 0, Sense.minimize, []⟩
  have hN := h.1.1 (PyErr.nameError "q") rfl
  have hM := h.2.1.2 ⟨Term.const 1, rfl⟩
    ⟨⟨PyExpr.name "w", "<=", 5⟩, List.mem_singleton.mpr rfl,
      PyErr.nameError "w", rfl⟩
  exact ⟨hN.1, hN.2 _, hM.1, hM.2 _⟩

/-- C9 (confirmed).  For every state and every backend behaviour, whenever
a request of a given class reaches the dispatcher at all it goes to the
class's fixed backend: LP, IP and MILP always to GLPK (the
mixed-integer-linear backend), NLP and MINLP always to Ipopt (the
nonlinear backend).  Nothing in the assembled program other than the class
influences the choice. -/
theorem seleccionBackendPorClase (sL sI : EstadoLineal) (nL nI : List String)
    (bL bI : ModeloLineal → RawSolverResult) (sN : EstadoNLP) (sM sQ : EstadoMixto)
    (bN bM bQ : ModeloExpr → RawSolverResult) :
    (solverDe (LP.resolver sL nL bL) = none ∨
      solverDe (LP.resolver sL nL bL) = some backendLinealEntero) ∧
    (solverDe (IP.resolver sI nI bI) = none ∨
      solverDe (IP.resolver sI nI bI) = some backendLinealEntero) ∧
    (solverDe (MILP.resolver sM bM) = none ∨
      solverDe (MILP.resolver sM bM) = some backendLinealEntero) ∧
    (solverDe (NLP.resolver sN bN) = none ∨
      solverDe (NLP.resolver sN bN) = some backendNoLineal) ∧
    (solverDe (MINLP.resolver sQ bQ) = none ∨
      solverDe (MINLP.resolver sQ bQ) = some backendNoLineal) := by
  refine ⟨?_, ?_, ?_, ?_, ?_⟩
  · rcases hval : validarParametros sL nL with ⟨b, errs⟩
    cases b
    · left
      simp [LP.resolver, hval, solverDe]
    · cases hc : LP.construirModelo sL with
      | ok m =>
        right
        simp [LP.resolver, hval, hc, solverDe, backendLinealEntero]
      | error e =>
        left
        simp [LP.resolver, hval, hc, solverDe]
  · rcases hval : validarParametros sI nI with ⟨b, errs⟩
    cases b
    · left
      simp [IP.resolver, hval, solverDe]
    · cases hc : IP.construirModelo sI with
      | ok m =>
        right
        simp [IP.resolver, hval, hc, solverDe, backendLinealEntero]
      | error e =>
        left
        simp [IP.resolver, hval, hc, solverDe]
  · cases hc : MILP.construirModelo sM with
    | ok m =>
      right
      simp [MILP.resolver, hc, solverDe, backendLinealEntero]
    | error e =>
      left
      simp [MILP.resolver, hc, solverDe]
  · cases hc : NLP.construirModelo sN with
    | ok m =>
      right
      simp [NLP.resolver, hc, solverDe, backendNoLineal]
    | error e =>
      left
      simp [NLP.resolver, hc, solverDe]
  · cases hc : MINLP.construirModelo sQ with
    | ok m =>
      right
      simp [MINLP.resolver, hc, solverDe, backendNoLineal]
    | error e =>
      left
      simp [MINLP.resolver, hc, solverDe]

theorem normalizarFila_propiedades (nombres : List String) (r : RestrInput)
    (r2 : Restriccion) (h : normalizarFila nombres r = some r2) :
    r2.parametro ∈ nombres ∧ r2.operador ∈ etiquetasCanonicas ∧
    pyFloat r.valor = some r2.valor := by
  unfold normalizarFila at h
  by_cases hp : r.parametro ∈ nombres
  · rw [if_pos hp] at h
    cases hop : canonicalizarOperador r.operador with
    | some opc =>
      rw [hop] at h
      cases hv : pyFloat r.valor with
      | some v =>
        rw [hv] at h
        have h2 : (⟨r.parametro, opc, v⟩ : Restriccion) = r2 :=
          Option.some_injective _ (by simpa using h)
        obtain rfl := h2.symm
        exact ⟨hp, canonicalizarOperador_mem_etiquetas _ _ hop, rfl⟩
      | none =>
        rw [hv] at h
        exact absurd h (by simp)
    | none =>
      rw [hop] at h
      exact absurd h (by simp)
  · rw [if_neg hp] at h
    exact absurd h (by simp)

theorem despachoOperador_no_estricto (r : Restriccion)
    (h : r.operador ∈ ["<=", ">=", "=="]) :
    ∃ c, despachoOperador r = Except.ok (some c) := by
  simp only [List.mem_cons] at h
  rcases h with h | h | h | h
  case _ => exact ⟨⟨r.parametro, CompOp.le, r.valor⟩, by simp [despachoOperador, h]⟩
  case _ => exact ⟨⟨r.parametro, CompOp.ge, r.valor⟩, by simp [despachoOperador, h]⟩
  case _ => exact ⟨⟨r.parametro, CompOp.eq, r.valor⟩, by simp [despachoOperador, h]⟩
  case _ => exact absurd h (List.not_mem_nil _)

theorem despachoOperador_estricto (r : Restriccion)
    (h : r.operador ∈ ["<", ">", "!="]) :
    ∃ e, despachoOperador r = Except.error e := by
  simp only [List.mem_cons] at h
  rcases h with h | h | h | h
  case _ => exact ⟨PyErr.desigualdadEstricta, by simp [despachoOperador, h]⟩
  case _ => exact ⟨PyErr.desigualdadEstricta, by simp [despachoOperador, h]⟩
  case _ => exact ⟨PyErr.conversionABool, by simp [despachoOperador, h]⟩
  case _ => exact absurd h (List.not_mem_nil _)

theorem construirFilas_ok_longitud (claves : List String) :
    ∀ l : List Restriccion,
      (∀ r ∈ l, r.parametro ∈ claves ∧ ∃ c, despachoOperador r = Except.ok (some c)) →
      ∃ constr, construirFilas claves l = Except.ok constr ∧ constr.length = l.length := by
  intro l
  induction l with
  | nil => intro _; exact ⟨[], rfl, rfl⟩
  | cons r rest ih =>
    intro h
    obtain ⟨hp, c, hc⟩ := h r (List.mem_cons_self r rest)
    obtain ⟨cola, hcola, hlen⟩ := ih (fun r2 hr2 => h r2 (List.mem_cons_of_mem r hr2))
    refine ⟨c :: cola, ?_, by simp [hlen]⟩
    simp [construirFilas, hp, hc, hcola]

theorem construirFilas_error_de_fila (claves : List String) :
    ∀ l : List Restriccion, (∀ r ∈ l, r.parametro ∈ claves) →
      (∃ r ∈ l, ∃ e, despachoOperador r = Except.error e) →
      ∃ e2, construirFilas claves l = Except.error e2 := by
  intro l
  induction l with
  | nil =>
    intro _ h
    obtain ⟨r, hr, _⟩ := h
    exact absurd hr (List.not_mem_nil r)
  | cons r rest ih =>
    intro hps h
    have hp := hps r (List.mem_cons_self r rest)
    cases hd : despachoOperador r with
    | error e =>
      exact ⟨BuildError.errorRestriccion e, by simp [construirFilas, hp, hd]⟩
    | ok oc =>
      have h2 : ∃ r2 ∈ rest, ∃ e, despachoOperador r2 = Except.error e := by
        obtain ⟨r2, hr2, e, he⟩ := h
        rcases List.mem_cons.mp hr2 with rfl | hmem
        · rw [hd] at he
          exact absurd he (by simp)
        · exact ⟨r2, hmem, e, he⟩
      obtain ⟨e2, htail⟩ := ih (fun r2 hr2 => hps r2 (List.mem_cons_of_mem r hr2)) h2
      exact ⟨e2, by simp [construirFilas, hp, hd, htail]⟩

/-- C10 counterexample.  The UI symbol `<` canonicalizes to the tag `<`,
so the normalizer emits the row `(A, <, 3)` — declared parameter,
canonical tag, coerced value — yet the builder adds NO constraint for it:
`model.restricciones.add(expr < 3)` raises Pyomo's strict-inequality
rejection and the build aborts.  Likewise, in expression mode a `!=` row
raises when the equality expression is truth-tested. -/
theorem construccionFilaEstricta_aborta :
    (parseRestricciones [⟨"A", "<", RawValue.num 3⟩] ["A"]).1 =
      [⟨"A", "<", 3⟩] ∧
    construirFilas ["A"] (parseRestricciones [⟨"A", "<", RawValue.num 3⟩] ["A"]).1 =
      Except.error (BuildError.errorRestriccion PyErr.desigualdadEstricta) ∧
    despachoOperadorSimb (Term.var "x") "!=" 0 =
      Except.error PyErr.conversionABool := by
  refine ⟨rfl, rfl, rfl⟩

/-- C10 as amended (proved).  Every row the linear-mode normalizer emits
carries a parameter from the declared set, one of the six canonical tags
(so the builder dispatch matches exactly one branch), and a coerced
numeric value.  When every emitted row carries `<=`, `>=` or `==`, the
builder accepts the whole output and each row contributes exactly one
constraint to the model; a row carrying `<`, `>` or `!=` instead raises
inside Pyomo (strict inequalities rejected by `add`; `!=` truth-tests the
equality expression) and aborts the build. -/
theorem filasNormalizadasInvariante (filas : List RestrInput) (nombres : List String) :
    (∀ r ∈ (parseRestricciones filas nombres).1,
      r.parametro ∈ nombres ∧ r.operador ∈ etiquetasCanonicas ∧
      ramasCoincidentes r.operador = 1 ∧
      (∃ fila ∈ filas, pyFloat fila.valor = some r.valor)) ∧
    ((∀ r ∈ (parseRestricciones filas nombres).1, r.operador ∈ ["<=", ">=", "=="]) →
      ∃ constr, construirFilas nombres (parseRestricciones filas nombres).1 =
          Except.ok constr ∧
        constr.length = (parseRestricciones filas nombres).1.length) ∧
    ((∃ r ∈ (parseRestricciones filas nombres).1, r.operador ∈ ["<", ">", "!="]) →
      ∃ e2, construirFilas nombres (parseRestricciones filas nombres).1 =
        Except.error e2) := by
  have hmem : ∀ r ∈ (parseRestricciones filas nombres).1,
      r.parametro ∈ nombres ∧ r.operador ∈ etiquetasCanonicas ∧
      ramasCoincidentes r.operador = 1 ∧
      (∃ fila ∈ filas, pyFloat fila.valor = some r.valor) := by
    intro r hr
    rw [parseRestricciones_fst] at hr
    obtain ⟨fila, hfila, hnorm⟩ := List.mem_filterMap.mp hr
    obtain ⟨hp, het, hv⟩ := normalizarFila_propiedades nombres fila r hnorm
    have hramas : ramasCoincidentes r.operador = 1 := by
      have het2 := het
      simp only [etiquetasCanonicas, List.mem_cons] at het2
      rcases het2 with h | h | h | h | h | h | h
      case _ => simp [ramasCoincidentes, h]
      case _ => simp [ramasCoincidentes, h]
      case _ => simp [ramasCoincidentes, h]
      case _ => simp [ramasCoincidentes, h]
      case _ => simp [ramasCoincidentes, h]
      case _ => simp [ramasCoincidentes, h]
      case _ => exact absurd h (List.not_mem_nil _)
    exact ⟨hp, het, hramas, fila, hfila, hv⟩
  refine ⟨hmem, ?_, ?_⟩
  · intro hops
    refine construirFilas_ok_longitud nombres _ ?_
    intro r hr
    exact ⟨(hmem r hr).1, despachoOperador_no_estricto r (hops r hr)⟩
  · intro hestricta
    refine construirFilas_error_de_fila nombres _ (fun r hr => (hmem r hr).1) ?_
    obtain ⟨r, hr, hop⟩ := hestricta
    exact ⟨r, hr, despachoOperador_estricto r hop⟩

/-- Witness for C10: the furniture row `(L, ≤, 48)` normalizes to the tag
`<=`, matches exactly one branch and contributes exactly one constraint,
while the strict row `(A, <, 3)` makes the builder abort. -/
theorem filasNormalizadasInvariante_testigo :
    (⟨"L", "<=", 48⟩ : Restriccion).parametro ∈ ["L", "F", "C", "P"] ∧
    ramasCoincidentes "<=" = 1 ∧
    (∃ constr, construirFilas ["L", "F", "C", "P"]
        (parseRestricciones [⟨"L", "≤", RawValue.num 48⟩] ["L", "F", "C", "P"]).1 =
        Except.ok constr ∧
      constr.length =
        (parseRestricciones [⟨"L", "≤", RawValue.num 48⟩] ["L", "F", "C", "P"]).1.length) ∧
    (∃ e2, construirFilas ["A"]
        (parseRestricciones [⟨"A", "<", RawValue.num 3⟩] ["A"]).1 =
      Except.error e2) := by
  have h := filasNormalizadasInvariante [⟨"L", "≤", RawValue.num 48⟩] ["L", "F", "C", "P"]
  have h2 := filasNormalizadasInvariante [⟨"A", "<", RawValue.num 3⟩] ["A"]
  have hfila : (⟨"L", "<=", 48⟩ : Restriccion) ∈
      (parseRestricciones [⟨"L", "≤", RawValue.num 48⟩] ["L", "F", "C", "P"]).1 := by
    decide
  obtain ⟨hp, _, hramas, _⟩ := h.1 _ hfila
  exact ⟨hp, hramas, h.2.1 (by decide), h2.2.2 (by decide)⟩
